import Mathlib

/-!
Verification of the Supply-Chain inventory engine
(`src/agent_tools/database.py`) against its specification.

Shallow embedding notes:
* A pandas `DataFrame` is modelled as a `Frame`: a list of `Record`s plus
  frame-level booleans recording which optional columns are present in the
  schema (pandas column presence is frame-level, not per-row), plus the list
  of pass-through column names.  Pass-through values are stored positionally
  (`Record.extra` is aligned with `Frame.extraCols`).
* Numeric cell values are `Rat`; a missing value (`NaN`/`None`) is `none` in
  an `Option`.  Dates are day numbers (`Int`); `pd.to_datetime` is an external
  library routine, modelled abstractly by the partial parser `parseDate`
  (a decimal string parses to its day number, anything else fails), which is
  what the claims need: parsing is total on well-formed input and fails
  otherwise.
* Python exceptions become `Except` values: `LoadError` distinguishes the
  `KeyError` raised by a column lookup, the `ValueError` raised by the
  required-column check (`SchemaError` in the spec taxonomy) and the parse
  failure of `pd.to_datetime` (`FormatError`).
* `sorted` / `DataFrame.sort_values` are modelled by `List.insertionSort`,
  a stable comparison sort.
-/

namespace SupplyChain

attribute [local semireducible] Rat.mul Rat.inv Rat.add Rat.sub

/-- A cell value of a non-core column: numeric or textual. -/
inductive Val where
  | num (q : Rat) : Val
  | str (s : String) : Val
deriving DecidableEq, Repr

/-- One processed row of the store (`self.data` in `DatabaseManager`).
Core columns are explicit fields; `extra` holds the pass-through columns,
positionally aligned with `Frame.extraCols`.  `none` models `NaN`/`None`. -/
structure Record where
  product : String
  date : Int
  stock : Rat
  sold : Rat
  produced : Option Rat
  temp : Option Val
  weather : Option Val
  promo : Option Rat
  stockout : Option Rat
  extra : List (Option Val)
deriving DecidableEq, Repr

/-- The store: rows plus frame-level presence flags for the optional columns
that the code tests with `'col' in df.columns`. -/
structure Frame where
  hasStockout : Bool
  hasProduced : Bool
  hasPromo : Bool
  extraCols : List String
  rows : List Record
deriving DecidableEq, Repr

/-- One raw CSV row as handed to `setup_database`.  Field values are only
meaningful when the corresponding `RawFrame` presence flag is set. -/
structure RawRow where
  product : String
  dateStr : String
  stock : Rat
  sold : Option Rat
  produced : Option Rat
  temp : Option Val
  weather : Option Val
  promo : Option Rat
  stockout : Option Rat
  extra : List (Option Val)
deriving DecidableEq, Repr

/-- The raw CSV table: per-column presence flags plus the rows. -/
structure RawFrame where
  hasProduct : Bool
  hasDate : Bool
  hasStock : Bool
  hasSold : Bool
  hasStockout : Bool
  hasProduced : Bool
  hasPromo : Bool
  extraCols : List String
  rows : List RawRow
deriving DecidableEq, Repr

/-- Errors `setup_database` can raise: `keyError c` is the Python `KeyError`
from `data[c]` when column `c` is absent; `schemaError` is the
`ValueError(f"Colonnes manquantes: ...")` (spec: `SchemaError`); `formatError`
is the `pd.to_datetime` parse failure (spec: `FormatError`). -/
inductive LoadError where
  | keyError (col : String) : LoadError
  | schemaError (missing : List String) : LoadError
  | formatError : LoadError
deriving DecidableEq, Repr

/-- The write failure of `DataFrame.to_csv` (spec: `IOError`). -/
inductive IOErr where
  | ioErr : IOErr
deriving DecidableEq, Repr

/-- Reads a digit list as a number; fails at the first non-digit. -/
def digitsToNat : List Char → Nat → Option Nat
  | [], acc => some acc
  | c :: cs, acc =>
    if c.isDigit then digitsToNat cs (acc * 10 + (c.toNat - 48)) else none

/-- Abstract model of `pd.to_datetime` on one cell: a nonempty decimal digit
string parses to that day number, anything else raises. -/
def parseDate (s : String) : Option Int :=
  if s.data.isEmpty then none
  else (digitsToNat s.data 0).map (fun n => (n : Int))

/-- Parse one raw row's date, keeping the row. -/
def parseRow (r : RawRow) : Option (Int × RawRow) :=
  (parseDate r.dateStr).map (fun d => (d, r))

/-- `pd.to_datetime(data['date'])` over the whole column: fails if any row
fails. -/
def parseAll : List RawRow → Option (List (Int × RawRow))
  | [] => some []
  | r :: rs =>
    match parseRow r, parseAll rs with
    | some p, some ps => some (p :: ps)
    | _, _ => none

/-- `[col for col in required_cols if col not in data.columns]`, in the
code's column order. -/
def requiredMissing (raw : RawFrame) : List String :=
  (if raw.hasProduct then [] else ["Product type"]) ++
  (if raw.hasDate then [] else ["date"]) ++
  (if raw.hasStock then [] else ["current_stock_level"]) ++
  (if raw.hasSold then [] else ["daily_sold_units"])

/-- The per-row normalization done by `setup_database` after sorting:
derive `is_stockout` from the *raw* stock value when the column is absent
(code line 42, before clamping), fill missing `daily_sold_units` and (when
the column exists) `daily_production_units` with 0, then clamp stock and
sold at 0 (code lines 56-57). -/
def normalizeRow (hasStockout hasProduced : Bool) (pr : Int × RawRow) : Record :=
  { product := pr.2.product
    date := pr.1
    stock := max 0 pr.2.stock
    sold := max 0 (pr.2.sold.getD 0)
    produced := if hasProduced then some (pr.2.produced.getD 0) else none
    temp := pr.2.temp
    weather := pr.2.weather
    promo := pr.2.promo
    stockout := if hasStockout then pr.2.stockout
                else some (if pr.2.stock = 0 then 1 else 0)
    extra := pr.2.extra }

/-- Date order on parsed raw rows (`sort_values('date')` key). -/
def pairLE (a b : Int × RawRow) : Prop := a.1 ≤ b.1

instance : DecidableRel pairLE := fun a b => inferInstanceAs (Decidable (a.1 ≤ b.1))

instance : IsTotal (Int × RawRow) pairLE := ⟨fun a b => Int.le_total a.1 b.1⟩

instance : IsTrans (Int × RawRow) pairLE := ⟨fun _ _ _ h1 h2 => le_trans h1 h2⟩

/-- `setup_database(csv_path)` (database.py lines 12-69), given the already
read CSV table.  Steps, in source order: convert the `date` column
(`KeyError` if absent, `FormatError` if unparsable), sort by date, check the
required columns (`SchemaError`), derive `is_stockout` when absent, zero-fill,
clamp. -/
def setup_database (raw : RawFrame) : Except LoadError Frame :=
  if raw.hasDate then
    match parseAll raw.rows with
    | none => Except.error LoadError.formatError
    | some prs =>
      if (requiredMissing raw).isEmpty then
        Except.ok
          { hasStockout := true
            hasProduced := raw.hasProduced
            hasPromo := raw.hasPromo
            extraCols := raw.extraCols
            rows := (List.insertionSort pairLE prs).map
                      (normalizeRow raw.hasStockout raw.hasProduced) }
      else Except.error (LoadError.schemaError (requiredMissing raw))
  else Except.error (LoadError.keyError "date")

/-- Date order on records. -/
def dateLE (a b : Record) : Prop := a.date ≤ b.date

instance : DecidableRel dateLE := fun a b => inferInstanceAs (Decidable (a.date ≤ b.date))

instance : IsTotal Record dateLE := ⟨fun a b => Int.le_total a.date b.date⟩

instance : IsTrans Record dateLE := ⟨fun _ _ _ h1 h2 => le_trans h1 h2⟩

/-- `self.data.sort_values('date').reset_index(drop=True)`. -/
def sortByDate (rs : List Record) : List Record := List.insertionSort dateLE rs

/-- The collection is in ascending date order. -/
def DateSorted (rs : List Record) : Prop := List.Sorted dateLE rs

/-- `DatabaseManager.__init__` (lines 80-98): copy, derive `is_stockout` when
the column is absent, sort by date.  (The date-conversion step is the
identity here: dates are already day numbers in the model.) -/
def initManager (f : Frame) : Frame :=
  let g :=
    if f.hasStockout then f
    else { f with
            hasStockout := true
            rows := f.rows.map (fun r =>
              { r with stockout := some (if r.stock = 0 then 1 else 0) }) }
  { g with rows := sortByDate g.rows }

/-- The product filter `if product: df = df[df['Product type'] == product]`.
A `none` or empty-string argument is falsy in Python, so no filtering
happens. -/
def matchesProduct (p : Option String) (r : Record) : Bool :=
  match p with
  | none => true
  | some s => if s = "" then true else r.product = s

/-- `df['date'].max()` (only used on a nonempty frame). -/
def maxDate : List Record → Int
  | [] => 0
  | r :: rs => rs.foldl (fun m x => max m x.date) r.date

/-- `DatabaseManager.get_inventory_data` (lines 100-123): filter by product,
then keep dates `≥ max - period_days` (computed on the filtered subset);
an empty filtered subset is returned as-is. -/
def get_inventory_data (db : Frame) (product : Option String) (period_days : Int) :
    List Record :=
  let df := db.rows.filter (matchesProduct product)
  if df.isEmpty then df
  else df.filter (fun r => maxDate df - period_days ≤ r.date)

/-- `sum(...) / len(...)` — pandas `Series.mean` on a nonempty column. -/
def mean (l : List Rat) : Rat := l.sum / (l.length : Rat)

/-- `Series.min` on a nonempty column. -/
def listMin : List Rat → Rat
  | [] => 0
  | x :: xs => xs.foldl min x

/-- `Series.max` on a nonempty column. -/
def listMax : List Rat → Rat
  | [] => 0
  | x :: xs => xs.foldl max x

/-- The stats dict built by `get_product_stats`.  (The conditional
`total_revenue` / `avg_price` / `total_production` entries are not modelled:
no claim mentions them.) -/
structure Stats where
  total_sales : Rat
  avg_daily_sales : Rat
  current_stock : Rat
  min_stock : Rat
  max_stock : Rat
  stockout_days : Nat
deriving DecidableEq, Repr

/-- `DatabaseManager.get_product_stats` (lines 172-207): stats over the
product window; `None` when the window is empty; `current_stock` is the last
record (`iloc[-1]`) of the date-sorted window. -/
def get_product_stats (db : Frame) (product : String) (period_days : Int) :
    Option Stats :=
  let df := get_inventory_data db (some product) period_days
  match df.getLast? with
  | none => none
  | some lastR =>
    some
      { total_sales := (df.map (fun r => r.sold)).sum
        avg_daily_sales := mean (df.map (fun r => r.sold))
        current_stock := lastR.stock
        min_stock := listMin (df.map (fun r => r.stock))
        max_stock := listMax (df.map (fun r => r.stock))
        stockout_days :=
          if db.hasStockout then (df.filter (fun r => r.stockout = some 1)).length
          else 0 }

/-- `pd.unique` keeps the first occurrence of each value, in order. -/
def uniqueKeepFirst (l : List String) : List String :=
  l.foldl (fun acc x => if x ∈ acc then acc else acc ++ [x]) []

/-- `DatabaseManager.get_all_products` (lines 209-216). -/
def get_all_products (db : Frame) : List String :=
  uniqueKeepFirst (db.rows.map (fun r => r.product))

/-- The impact dict built by `get_promotion_impact`. -/
structure PromoImpact where
  avg_sales_with_promo : Rat
  avg_sales_without_promo : Rat
  promo_days : Nat
  regular_days : Nat
  uplift_percent : Rat
deriving DecidableEq, Repr

/-- `DatabaseManager.get_promotion_impact` (lines 308-339): `None` when the
`promotion_active` column is absent or either partition of the window is
empty; otherwise the two means and the uplift.  (Rat division is total with
`x / 0 = 0`; the Python code performs the float division unguarded.) -/
def get_promotion_impact (db : Frame) (product : String) (period_days : Int) :
    Option PromoImpact :=
  let df := get_inventory_data db (some product) period_days
  if db.hasPromo then
    let wp := df.filter (fun r => r.promo = some 1)
    let wo := df.filter (fun r => r.promo = some 0)
    if wp.isEmpty || wo.isEmpty then none
    else
      some
        { avg_sales_with_promo := mean (wp.map (fun r => r.sold))
          avg_sales_without_promo := mean (wo.map (fun r => r.sold))
          promo_days := wp.length
          regular_days := wo.length
          uplift_percent :=
            (mean (wp.map (fun r => r.sold)) / mean (wo.map (fun r => r.sold)) - 1)
              * 100 }
  else none

/-- The `new_record` dict built by `add_production_record` (lines 141-161):
the nine explicit keys, plus, for every pass-through column, the last known
value for this product (`product_data[col].iloc[-1]`) when a prior record
exists, else `None`. -/
def appendRecord (db : Frame) (product : String) (date : Int)
    (stock_level sold_units production_units : Rat)
    (temp_celsius weather_condition : Option Val) (promotion_active : Rat) :
    Record :=
  { product := product
    date := date
    stock := stock_level
    sold := sold_units
    produced := some production_units
    temp := temp_celsius
    weather := weather_condition
    promo := some promotion_active
    stockout := some (if stock_level = 0 then 1 else 0)
    extra :=
      match (db.rows.filter (fun r => r.product = product)).getLast? with
      | some lastR => lastR.extra
      | none => db.extraCols.map (fun _ => none) }

/-- `DatabaseManager.add_production_record` (lines 125-170): build the new
record, concatenate, re-sort by date.  `pd.concat` materializes the nine
explicit columns on the whole frame, so their presence flags become true. -/
def add_production_record (db : Frame) (product : String) (date : Int)
    (stock_level sold_units production_units : Rat)
    (temp_celsius weather_condition : Option Val) (promotion_active : Rat) :
    Frame :=
  { db with
    hasStockout := true
    hasProduced := true
    hasPromo := true
    rows := sortByDate
      (db.rows ++
        [appendRecord db product date stock_level sold_units production_units
          temp_celsius weather_condition promotion_active]) }

/-- `DatabaseManager.backup_data` (lines 388-399): `self.data.to_csv` inside
`try`, with an `except` that prints and falls through — the write action is
abstracted as a parameter; a failed write is swallowed, never re-raised. -/
def backup_data (db : Frame) (writeAction : Frame → Except IOErr Unit) :
    Except IOErr Unit :=
  match writeAction db with
  | Except.ok _ => Except.ok ()
  | Except.error _ => Except.ok ()

/-- Python `round` to an integer: round half to even. -/
def roundHalfEven (q : Rat) : Int :=
  let f : Int := Int.fdiv q.num (q.den : Int)
  let frac : Rat := q - (f : Rat)
  if frac < 1 / 2 then f
  else if 1 / 2 < frac then f + 1
  else if f % 2 = 0 then f else f + 1

/-- Python `round(q, k)`. -/
def roundTo (k : Nat) (q : Rat) : Rat :=
  ((roundHalfEven (q * (10 : Rat) ^ k) : Rat)) / (10 : Rat) ^ k

/-- One entry of the `get_low_stock_products` output. -/
structure LowStockEntry where
  product : String
  current_stock : Rat
  days_of_stock : Rat
  avg_daily_sales : Rat
deriving DecidableEq, Repr

/-- The `low_stock` list built by the loop of `get_low_stock_products`
(lines 411-425), before the final `sorted`: one entry per product whose
30-day stats exist, whose mean daily sales are strictly positive and whose
days of stock are below the threshold. -/
def lowStockCandidates (db : Frame) (threshold_days : Rat) : List LowStockEntry :=
  (get_all_products db).filterMap (fun p =>
    match get_product_stats db p 30 with
    | none => none
    | some s =>
      if 0 < s.avg_daily_sales then
        if s.current_stock / s.avg_daily_sales < threshold_days then
          some
            { product := p
              current_stock := s.current_stock
              days_of_stock := roundTo 1 (s.current_stock / s.avg_daily_sales)
              avg_daily_sales := roundTo 2 s.avg_daily_sales }
        else none
      else none)

/-- Ascending order on the reported (rounded) days of stock, the
`sorted(..., key=lambda x: x['days_of_stock'])` key. -/
def dosLE (a b : LowStockEntry) : Prop := a.days_of_stock ≤ b.days_of_stock

instance : DecidableRel dosLE := fun a b =>
  inferInstanceAs (Decidable (a.days_of_stock ≤ b.days_of_stock))

instance : IsTotal LowStockEntry dosLE := ⟨fun a b => le_total a.days_of_stock b.days_of_stock⟩

instance : IsTrans LowStockEntry dosLE := ⟨fun _ _ _ h1 h2 => le_trans h1 h2⟩

/-- `DatabaseManager.get_low_stock_products` (lines 401-427): the candidate
list, stably sorted ascending by `days_of_stock`. -/
def get_low_stock_products (db : Frame) (threshold_days : Rat) : List LowStockEntry :=
  List.insertionSort dosLE (lowStockCandidates db threshold_days)

/-- Does a load result carry the required-columns `ValueError` (the spec's
`SchemaError`)? -/
def isSchemaError : Except LoadError Frame → Bool
  | Except.error (LoadError.schemaError _) => true
  | _ => false

instance (rs : List Record) : Decidable (DateSorted rs) :=
  inferInstanceAs (Decidable (List.Pairwise dateLE rs))

/-! ### Concrete test data -/

/-- A raw row with the required columns populated and everything else empty. -/
def exRawRow (p d : String) (st : Rat) (so : Option Rat) : RawRow :=
  { product := p, dateStr := d, stock := st, sold := so, produced := none,
    temp := none, weather := none, promo := none, stockout := none, extra := [] }

/-- Raw table whose single row has a negative stock level and no supplied
`is_stockout` column. -/
def rawNegStock : RawFrame :=
  { hasProduct := true, hasDate := true, hasStock := true, hasSold := true,
    hasStockout := false, hasProduced := false, hasPromo := false,
    extraCols := [], rows := [exRawRow "A" "100" (-1) (some 2)] }

/-- The same raw table with the `date` column absent. -/
def rawNoDate : RawFrame := { rawNegStock with hasDate := false }

/-- Raw table with an unparsable date value. -/
def rawBadDate : RawFrame :=
  { rawNegStock with rows := [exRawRow "A" "not-a-date" 5 (some 2)] }

/-- Raw table with the `Product type` column absent. -/
def rawNoProduct : RawFrame := { rawNegStock with hasProduct := false }

/-- The store `setup_database` produces from `rawNegStock`: the clamped stock
is 0 but the derived flag, computed from the raw value `-1`, is 0. -/
def loadedNegStock : Frame :=
  { hasStockout := true, hasProduced := false, hasPromo := false, extraCols := [],
    rows := [{ product := "A", date := 100, stock := 0, sold := 2, produced := none,
               temp := none, weather := none, promo := none, stockout := some 0,
               extra := [] }] }

/-- Record constructor for concrete stores. -/
def exRec (p : String) (d : Int) (st so : Rat) (promo : Option Rat)
    (extra : List (Option Val)) : Record :=
  { product := p, date := d, stock := st, sold := so, produced := none,
    temp := none, weather := none, promo := promo,
    stockout := some (if st = 0 then 1 else 0), extra := extra }

/-- A small date-sorted store with one pass-through column (`Price`) and two
products. -/
def exDb : Frame :=
  { hasStockout := true, hasProduced := false, hasPromo := false,
    extraCols := ["Price"],
    rows := [exRec "A" 100 10 4 none [some (Val.num 9)],
             exRec "A" 101 9 2 none [some (Val.num 11)],
             exRec "B" 101 50 0 none [none]] }

/-- A store whose promotion-inactive records sold zero units: both partitions
are nonempty, yet the mean of the inactive side is zero. -/
def dbPromoZero : Frame :=
  { hasStockout := true, hasProduced := false, hasPromo := true, extraCols := [],
    rows := [exRec "A" 100 5 0 (some 0) [], exRec "A" 101 4 7 (some 1) []] }

/-- What `get_promotion_impact` computes on `dbPromoZero`: the without-promo
mean is 0, and the uplift formula divides by it (total division in `Rat`;
the Python float division yields infinity there). -/
def impZero : PromoImpact :=
  { avg_sales_with_promo := 7, avg_sales_without_promo := 0,
    promo_days := 1, regular_days := 1, uplift_percent := -100 }

/-! ### Helper lemmas -/

theorem foldl_max_init_le (xs : List Record) :
    ∀ init : Int, init ≤ xs.foldl (fun m x => max m x.date) init := by
  induction xs with
  | nil => intro init; exact le_refl _
  | cons x xs ih =>
    intro init
    exact le_trans (le_max_left _ _) (ih (max init x.date))

theorem le_foldl_max_of_mem (xs : List Record) :
    ∀ (init : Int) (r : Record), r ∈ xs →
      r.date ≤ xs.foldl (fun m x => max m x.date) init := by
  induction xs with
  | nil => intro _ r hr; cases hr
  | cons x xs ih =>
    intro init r hr
    rcases List.mem_cons.mp hr with h | h
    · subst h
      exact le_trans (le_max_right init r.date) (foldl_max_init_le xs (max init r.date))
    · exact ih (max init x.date) r h

theorem le_maxDate_of_mem {rs : List Record} {r : Record} (h : r ∈ rs) :
    r.date ≤ maxDate rs := by
  cases rs with
  | nil => cases h
  | cons x xs =>
    rcases List.mem_cons.mp h with h' | h'
    · subst h'
      exact foldl_max_init_le xs r.date
    · exact le_foldl_max_of_mem xs x.date r h'

theorem parseAll_eq_none {rows : List RawRow}
    (h : ∃ r ∈ rows, parseDate r.dateStr = none) : parseAll rows = none := by
  induction rows with
  | nil => rcases h with ⟨r, hr, _⟩; cases hr
  | cons x xs ih =>
    rcases h with ⟨r, hr, hp⟩
    rcases List.mem_cons.mp hr with h' | h'
    · subst h'
      simp [parseAll, parseRow, hp]
    · have hx := ih ⟨r, h', hp⟩
      simp only [parseAll, hx]
      cases parseRow x <;> rfl

theorem date_le_getLast {l : List Record} (hs : List.Sorted dateLE l)
    {lastR : Record} (hl : l.getLast? = some lastR) :
    ∀ r ∈ l, r.date ≤ lastR.date := by
  induction l with
  | nil => intro r hr; cases hr
  | cons x xs ih =>
    intro r hr
    cases xs with
    | nil =>
      have hx : lastR = x := by
        simp [List.getLast?] at hl
        exact hl.symm
      rcases List.mem_cons.mp hr with h' | h'
      · subst h'; subst hx; exact le_refl _
      · cases h'
    | cons y ys =>
      have hl' : (y :: ys).getLast? = some lastR := by
        rw [← hl]; rfl
      have hcons := List.pairwise_cons.mp hs
      rcases List.mem_cons.mp hr with h' | h'
      · subst h'
        exact hcons.1 lastR (List.mem_of_mem_getLast? hl')
      · exact ih hcons.2 hl' r h'

theorem window_filter_eq (days : Int) (l : List Record) :
    (if l.isEmpty then l
     else l.filter (fun r => decide (maxDate l - days ≤ r.date))) =
    l.filter (fun r => decide (maxDate l - days ≤ r.date) &&
      decide (r.date ≤ maxDate l)) := by
  by_cases he : l.isEmpty
  · rw [if_pos he, List.isEmpty_iff.mp he]
    rfl
  · rw [if_neg he]
    apply List.filter_congr
    intro r hr
    rw [decide_eq_true (le_maxDate_of_mem hr), Bool.and_true]

/-! ### The claims -/

/-- C1: on a date-sorted store, `get_inventory_data` returns exactly the
records that pass the product filter and whose date lies in
`[max_date - days, max_date]`, where `max_date` is the maximum date of the
product-filtered subset; the result is sorted ascending by date, and an
empty filtered subset yields an empty result. -/
theorem c1_window (db : Frame) (p : Option String) (days : Int)
    (hs : DateSorted db.rows) :
    get_inventory_data db p days =
      (db.rows.filter (matchesProduct p)).filter
        (fun r =>
          decide (maxDate (db.rows.filter (matchesProduct p)) - days ≤ r.date) &&
          decide (r.date ≤ maxDate (db.rows.filter (matchesProduct p)))) ∧
    DateSorted (get_inventory_data db p days) ∧
    (db.rows.filter (matchesProduct p) = [] → get_inventory_data db p days = []) := by
  have h1 : get_inventory_data db p days =
      (db.rows.filter (matchesProduct p)).filter
        (fun r =>
          decide (maxDate (db.rows.filter (matchesProduct p)) - days ≤ r.date) &&
          decide (r.date ≤ maxDate (db.rows.filter (matchesProduct p)))) :=
    window_filter_eq days (db.rows.filter (matchesProduct p))
  refine ⟨h1, ?_, ?_⟩
  · rw [h1]
    exact List.Pairwise.sublist
      ((List.filter_sublist _).trans (List.filter_sublist _)) hs
  · intro h0
    rw [h1, h0]
    rfl

/-- C1 witness: the window query evaluated on the concrete sorted store
`exDb`, product `A`, `days = 0`. -/
theorem c1_witness :
    get_inventory_data exDb (some "A") 0 =
      (exDb.rows.filter (matchesProduct (some "A"))).filter
        (fun r =>
          decide (maxDate (exDb.rows.filter (matchesProduct (some "A"))) - 0 ≤ r.date) &&
          decide (r.date ≤ maxDate (exDb.rows.filter (matchesProduct (some "A"))))) ∧
    DateSorted (get_inventory_data exDb (some "A") 0) ∧
    (exDb.rows.filter (matchesProduct (some "A")) = [] →
      get_inventory_data exDb (some "A") 0 = []) :=
  c1_window exDb (some "A") 0 (by decide)

/-- C2 (amended): after a successful load, row by row in sorted order, the
stored stock is the clamped raw stock, and the stockout flag is derived from
the raw, pre-clamp stock value when no `is_stockout` column was supplied
(so a negative raw stock is stored as 0 with a false flag), and is the
supplied value verbatim otherwise. -/
theorem c2_amended (raw : RawFrame) (f : Frame) (prs : List (Int × RawRow))
    (hp : parseAll raw.rows = some prs)
    (h : setup_database raw = Except.ok f) :
    List.Forall₂
      (fun (pr : Int × RawRow) (r : Record) =>
        r.stock = max 0 pr.2.stock ∧
        (raw.hasStockout = false →
          r.stockout = some (if pr.2.stock = 0 then 1 else 0)) ∧
        (raw.hasStockout = true → r.stockout = pr.2.stockout))
      (List.insertionSort pairLE prs) f.rows := by
  by_cases hd : raw.hasDate = true
  · simp only [setup_database, hd, hp, if_true] at h
    by_cases hm : (requiredMissing raw).isEmpty = true
    · simp only [hm, if_true] at h
      rw [← Except.ok.inj h]
      show List.Forall₂ _ (List.insertionSort pairLE prs)
        ((List.insertionSort pairLE prs).map
          (normalizeRow raw.hasStockout raw.hasProduced))
      rw [List.forall₂_map_right_iff]
      refine List.forall₂_same.mpr ?_
      intro x _
      refine ⟨rfl, ?_, ?_⟩
      · intro hso
        simp [normalizeRow, hso]
      · intro hso
        simp [normalizeRow, hso]
    · simp only [hm, if_false] at h
      exact Except.noConfusion h
  · simp only [setup_database, hd, if_false] at h
    exact Except.noConfusion h

/-- C2 witness: the amended per-row property evaluated on the concrete raw
table `rawNegStock`, whose single row has raw stock `-1`. -/
theorem c2_amended_witness :
    List.Forall₂
      (fun (pr : Int × RawRow) (r : Record) =>
        r.stock = max 0 pr.2.stock ∧
        (rawNegStock.hasStockout = false →
          r.stockout = some (if pr.2.stock = 0 then 1 else 0)) ∧
        (rawNegStock.hasStockout = true → r.stockout = pr.2.stockout))
      (List.insertionSort pairLE [(100, exRawRow "A" "100" (-1) (some 2))])
      loadedNegStock.rows :=
  c2_amended rawNegStock loadedNegStock [(100, exRawRow "A" "100" (-1) (some 2))]
    (by decide) rfl

/-- C2 counterexample: loading a row with raw stock `-1` and no supplied
`is_stockout` produces a record with stock `0` (clamped) but stockout flag
`0`, so the loaded store violates `stockout flag = (stock_level == 0)`. -/
theorem c2_counterexample :
    setup_database rawNegStock = Except.ok loadedNegStock ∧
    ¬ (∀ r ∈ loadedNegStock.rows,
        r.stockout = some (if r.stock = 0 then 1 else 0)) :=
  ⟨rfl, by decide⟩

/-- C3: `get_low_stock_products` is sorted ascending by the reported
`days_of_stock`; an entry for a product exists exactly when its 30-day stats
exist, its mean daily sales are strictly positive and its (unrounded) days
of stock are below the threshold; entries carry `days_of_stock` rounded to 1
decimal and `avg_daily_sales` rounded to 2; and entries with equal sort key
keep the candidate (product-iteration) order, the sort being stable. -/
theorem c3_low_stock (db : Frame) (t : Rat) :
    List.Sorted dosLE (get_low_stock_products db t) ∧
    (∀ e : LowStockEntry, e ∈ get_low_stock_products db t ↔
      (e.product ∈ get_all_products db ∧
       ∃ s : Stats, get_product_stats db e.product 30 = some s ∧
         0 < s.avg_daily_sales ∧
         s.current_stock / s.avg_daily_sales < t ∧
         e.current_stock = s.current_stock ∧
         e.days_of_stock = roundTo 1 (s.current_stock / s.avg_daily_sales) ∧
         e.avg_daily_sales = roundTo 2 s.avg_daily_sales)) ∧
    (∀ v : Rat,
      (get_low_stock_products db t).filter (fun e => e.days_of_stock = v) =
      (lowStockCandidates db t).filter (fun e => e.days_of_stock = v)) := by
  refine ⟨List.sorted_insertionSort dosLE _, ?_, ?_⟩
  · intro e
    rw [show get_low_stock_products db t
        = List.insertionSort dosLE (lowStockCandidates db t) from rfl,
      List.mem_insertionSort, lowStockCandidates, List.mem_filterMap]
    constructor
    · rintro ⟨p, hp, hfp⟩
      cases hstats : get_product_stats db p 30 with
      | none =>
        simp only [hstats] at hfp
        exact Option.noConfusion hfp
      | some s =>
        simp only [hstats] at hfp
        by_cases havg : 0 < s.avg_daily_sales
        · rw [if_pos havg] at hfp
          by_cases hdos : s.current_stock / s.avg_daily_sales < t
          · rw [if_pos hdos] at hfp
            have he := Option.some.inj hfp
            refine ⟨?_, s, ?_, havg, hdos, ?_, ?_, ?_⟩
            · rw [← he]; exact hp
            · rw [← he]; exact hstats
            · rw [← he]
            · rw [← he]
            · rw [← he]
          · rw [if_neg hdos] at hfp
            exact Option.noConfusion hfp
        · rw [if_neg havg] at hfp
          exact Option.noConfusion hfp
    · rintro ⟨hp, s, hstats, havg, hdos, hcs, hds, has⟩
      refine ⟨e.product, hp, ?_⟩
      simp only [hstats]
      rw [if_pos havg, if_pos hdos, ← hds, ← has, ← hcs]
  · intro v
    have hpair : ((lowStockCandidates db t).filter
        (fun e => decide (e.days_of_stock = v))).Pairwise dosLE := by
      apply List.pairwise_of_forall_mem_list
      intro a ha b hb
      show a.days_of_stock ≤ b.days_of_stock
      rw [of_decide_eq_true (List.mem_filter.mp ha).2,
        of_decide_eq_true (List.mem_filter.mp hb).2]
    have hsub : List.Sublist
        ((lowStockCandidates db t).filter (fun e => decide (e.days_of_stock = v)))
        (List.insertionSort dosLE (lowStockCandidates db t)) :=
      List.sublist_insertionSort hpair (List.filter_sublist _)
    have hsub2 := List.Sublist.filter (fun e => decide (e.days_of_stock = v)) hsub
    have hidem : (((lowStockCandidates db t).filter
        (fun e => decide (e.days_of_stock = v))).filter
          (fun e => decide (e.days_of_stock = v)))
        = (lowStockCandidates db t).filter (fun e => decide (e.days_of_stock = v)) :=
      List.filter_eq_self.mpr (fun a ha => (List.mem_filter.mp ha).2)
    rw [hidem] at hsub2
    have hperm : (((List.insertionSort dosLE (lowStockCandidates db t)).filter
        (fun e => decide (e.days_of_stock = v)))).Perm
          ((lowStockCandidates db t).filter (fun e => decide (e.days_of_stock = v))) :=
      (List.perm_insertionSort dosLE (lowStockCandidates db t)).filter _
    exact (hsub2.eq_of_length hperm.length_eq.symm).symm

/-- C4 (amended): `get_promotion_impact` is absent exactly when the
promotion column is absent from the schema or either partition of the window
is empty; when it is present it reports the two partition means and the
uplift formula applied to them — including when the promotion-inactive mean
is zero, in which case the uplift divides by a zero mean. -/
theorem c4_amended (db : Frame) (product : String) (days : Int) :
    (get_promotion_impact db product days = none ↔
      db.hasPromo = false ∨
      (get_inventory_data db (some product) days).filter
        (fun r => r.promo = some 1) = [] ∨
      (get_inventory_data db (some product) days).filter
        (fun r => r.promo = some 0) = []) ∧
    (∀ imp : PromoImpact, get_promotion_impact db product days = some imp →
      (get_inventory_data db (some product) days).filter
        (fun r => r.promo = some 1) ≠ [] ∧
      (get_inventory_data db (some product) days).filter
        (fun r => r.promo = some 0) ≠ [] ∧
      imp.avg_sales_with_promo =
        mean (((get_inventory_data db (some product) days).filter
          (fun r => r.promo = some 1)).map (fun r => r.sold)) ∧
      imp.avg_sales_without_promo =
        mean (((get_inventory_data db (some product) days).filter
          (fun r => r.promo = some 0)).map (fun r => r.sold)) ∧
      imp.uplift_percent =
        (imp.avg_sales_with_promo / imp.avg_sales_without_promo - 1) * 100) := by
  by_cases hpr : db.hasPromo = true
  · by_cases h1 : (get_inventory_data db (some product) days).filter
        (fun r => r.promo = some 1) = []
    · have hb1 : ((get_inventory_data db (some product) days).filter
          (fun r => r.promo = some 1)).isEmpty = true := List.isEmpty_eq_true.mpr h1
      constructor
      · simp [get_promotion_impact, hpr, hb1, h1]
      · intro imp himp
        simp only [get_promotion_impact, hpr, if_true, hb1, Bool.true_or,
          if_pos] at himp
        exact Option.noConfusion himp
    · by_cases h0 : (get_inventory_data db (some product) days).filter
          (fun r => r.promo = some 0) = []
      · have hb0 : ((get_inventory_data db (some product) days).filter
            (fun r => r.promo = some 0)).isEmpty = true := List.isEmpty_eq_true.mpr h0
        constructor
        · simp [get_promotion_impact, hpr, hb0, h0]
        · intro imp himp
          simp only [get_promotion_impact, hpr, if_true, hb0, Bool.or_true,
            if_pos] at himp
          exact Option.noConfusion himp
      · have hb1 : ((get_inventory_data db (some product) days).filter
            (fun r => r.promo = some 1)).isEmpty = false := List.isEmpty_eq_false.mpr h1
        have hb0 : ((get_inventory_data db (some product) days).filter
            (fun r => r.promo = some 0)).isEmpty = false := List.isEmpty_eq_false.mpr h0
        constructor
        · constructor
          · intro h
            simp [get_promotion_impact, hpr, hb1, hb0] at h
          · intro h
            rcases h with h | h | h
            · rw [h] at hpr
              exact Bool.noConfusion hpr
            · exact absurd h h1
            · exact absurd h h0
        · intro imp himp
          simp only [get_promotion_impact, hpr, if_true, hb1, hb0,
            Bool.or_self, Bool.false_eq_true, if_false] at himp
          refine ⟨h1, h0, ?_, ?_, ?_⟩
          · rw [← Option.some.inj himp]
          · rw [← Option.some.inj himp]
          · rw [← Option.some.inj himp]
  · have hpr2 : db.hasPromo = false := Bool.eq_false_iff.mpr hpr
    constructor
    · simp [get_promotion_impact, hpr2]
    · intro imp himp
      simp [get_promotion_impact, hpr2] at himp

/-- C4 counterexample: on `dbPromoZero` both partitions are nonempty and the
promotion-inactive mean is zero, yet the function does not return absent —
it computes the uplift by dividing by that zero mean, refuting "never
divides by a zero mean". -/
theorem c4_counterexample :
    get_promotion_impact dbPromoZero "A" 90 = some impZero ∧
    impZero.avg_sales_without_promo = 0 := by
  decide

/-- C4 witness: the amended characterization evaluated on `dbPromoZero`. -/
theorem c4_amended_witness :
    (get_inventory_data dbPromoZero (some "A") 90).filter
      (fun r => r.promo = some 1) ≠ [] ∧
    (get_inventory_data dbPromoZero (some "A") 90).filter
      (fun r => r.promo = some 0) ≠ [] ∧
    impZero.avg_sales_with_promo =
      mean (((get_inventory_data dbPromoZero (some "A") 90).filter
        (fun r => r.promo = some 1)).map (fun r => r.sold)) ∧
    impZero.avg_sales_without_promo =
      mean (((get_inventory_data dbPromoZero (some "A") 90).filter
        (fun r => r.promo = some 0)).map (fun r => r.sold)) ∧
    impZero.uplift_percent =
      (impZero.avg_sales_with_promo / impZero.avg_sales_without_promo - 1) * 100 :=
  (c4_amended dbPromoZero "A" 90).2 impZero (by decide)

/-- C5: `add_production_record` adds exactly the one record built by the
`new_record` dict (stockout flag recomputed as `stock_level == 0`), carries
each pass-through column forward from the most recent record of that product
when one exists (the last, hence date-maximal, record of the filtered
subset) and leaves it absent otherwise, and the resulting collection is
date-sorted. -/
theorem c5_append (db : Frame) (product : String) (date : Int)
    (stock_level sold_units production_units : Rat)
    (temp_celsius weather_condition : Option Val) (promotion_active : Rat)
    (hs : DateSorted db.rows) :
    (add_production_record db product date stock_level sold_units production_units
      temp_celsius weather_condition promotion_active).rows.Perm
      (db.rows ++ [appendRecord db product date stock_level sold_units
        production_units temp_celsius weather_condition promotion_active]) ∧
    DateSorted (add_production_record db product date stock_level sold_units
      production_units temp_celsius weather_condition promotion_active).rows ∧
    (appendRecord db product date stock_level sold_units production_units
      temp_celsius weather_condition promotion_active).stockout
        = some (if stock_level = 0 then 1 else 0) ∧
    (∀ lastR : Record,
      (db.rows.filter (fun r => r.product = product)).getLast? = some lastR →
      (appendRecord db product date stock_level sold_units production_units
        temp_celsius weather_condition promotion_active).extra = lastR.extra ∧
      ∀ r ∈ db.rows.filter (fun r => r.product = product), r.date ≤ lastR.date) ∧
    ((db.rows.filter (fun r => r.product = product)).getLast? = none →
      (appendRecord db product date stock_level sold_units production_units
        temp_celsius weather_condition promotion_active).extra
          = db.extraCols.map (fun _ => none)) := by
  refine ⟨List.perm_insertionSort dateLE _, ?_, rfl, ?_, ?_⟩
  · show List.Sorted dateLE (sortByDate _)
    exact List.sorted_insertionSort dateLE _
  · intro lastR hl
    constructor
    · simp only [appendRecord, hl]
    · intro r hr
      have hfs : List.Sorted dateLE (db.rows.filter (fun r => r.product = product)) :=
        List.Pairwise.sublist (List.filter_sublist _) hs
      exact date_le_getLast hfs hl r hr
  · intro hl
    simp only [appendRecord, hl]

/-- C5 witness: appending to `exDb` carries the `Price` pass-through value
forward from product `A`'s latest record, leaves it absent for the unseen
product `C`, and flags `stock_level = 0` as a stockout. -/
theorem c5_witness :
    (appendRecord exDb "A" 102 0 3 0 none none 0).extra = [some (Val.num 11)] ∧
    (appendRecord exDb "C" 102 0 3 0 none none 0).extra = [none] ∧
    (appendRecord exDb "C" 102 0 3 0 none none 0).stockout = some 1 := by
  refine ⟨?_, ?_, ?_⟩
  · have h := ((c5_append exDb "A" 102 0 3 0 none none 0 (by decide)).2.2.2.1
      (exRec "A" 101 9 2 none [some (Val.num 11)]) (by decide)).1
    rw [h]
    rfl
  · have h := (c5_append exDb "C" 102 0 3 0 none none 0 (by decide)).2.2.2.2 (by decide)
    rw [h]
    rfl
  · have h := (c5_append exDb "C" 102 0 3 0 none none 0 (by decide)).2.2.1
    rw [h]
    norm_num

/-- C6 counterexample: `backup_data` with a failing write action returns
normally — the claim that a write failure is raised out of the export
operation, uncaught, is false. -/
theorem c6_counterexample :
    backup_data exDb (fun _ => Except.error IOErr.ioErr) = Except.ok () := rfl

/-- C6 (amended): `backup_data` catches every write failure (printing a
message) and returns normally; no error ever reaches the caller. -/
theorem c6_amended (db : Frame) (w : Frame → Except IOErr Unit) :
    backup_data db w = Except.ok () := by
  unfold backup_data
  cases w db <;> rfl

/-- C7 (amended): `setup_database` fails with the `KeyError` of the date
conversion when the date column is absent; with `FormatError` when a date
value is unparsable; and with `SchemaError` (listing the missing columns)
when the date column is present and parsable but product id, stock level or
units sold is absent. In each case no store value is produced. -/
theorem c7_amended (raw : RawFrame) (prs : List (Int × RawRow)) :
    (raw.hasDate = false →
      setup_database raw = Except.error (LoadError.keyError "date")) ∧
    (raw.hasDate = true → (∃ r ∈ raw.rows, parseDate r.dateStr = none) →
      setup_database raw = Except.error LoadError.formatError) ∧
    (raw.hasDate = true → parseAll raw.rows = some prs →
      (raw.hasProduct = false ∨ raw.hasStock = false ∨ raw.hasSold = false) →
      setup_database raw = Except.error (LoadError.schemaError (requiredMissing raw))) := by
  refine ⟨?_, ?_, ?_⟩
  · intro hd
    simp [setup_database, hd]
  · intro hd hex
    have hn := parseAll_eq_none hex
    simp [setup_database, hd, hn]
  · intro hd hp hmiss
    have hm : (requiredMissing raw).isEmpty = false := by
      rcases hmiss with h | h | h <;> simp [requiredMissing, h]
    simp [setup_database, hd, hp, hm]

/-- C7 witness: the three failure modes at concrete raw tables — missing
date column, unparsable date, missing product column. -/
theorem c7_amended_witness :
    setup_database rawNoDate = Except.error (LoadError.keyError "date") ∧
    setup_database rawBadDate = Except.error LoadError.formatError ∧
    setup_database rawNoProduct
      = Except.error (LoadError.schemaError (requiredMissing rawNoProduct)) := by
  refine ⟨(c7_amended rawNoDate []).1 rfl, ?_, ?_⟩
  · exact (c7_amended rawBadDate []).2.1 rfl
      ⟨exRawRow "A" "not-a-date" 5 (some 2), by decide, by decide⟩
  · exact (c7_amended rawNoProduct [(100, exRawRow "A" "100" (-1) (some 2))]).2.2
      rfl (by decide) (Or.inl rfl)

/-- C7 counterexample: with the date column absent from every row the load
does not fail with a `SchemaError` — it fails with the `KeyError` raised by
the date-conversion step, which runs before the required-columns check. -/
theorem c7_counterexample :
    isSchemaError (setup_database rawNoDate) = false ∧
    setup_database rawNoDate = Except.error (LoadError.keyError "date") :=
  ⟨rfl, rfl⟩

/-- C8: the record collection is in ascending date order after construction
(`DatabaseManager.__init__` sorts) and after every append (which re-sorts);
all other operations of the embedding are read-only functions of the store. -/
theorem c8_sorted :
    (∀ f : Frame, DateSorted (initManager f).rows) ∧
    (∀ (db : Frame) (product : String) (date : Int)
       (stock_level sold_units production_units : Rat)
       (temp_celsius weather_condition : Option Val) (promotion_active : Rat),
       DateSorted (add_production_record db product date stock_level sold_units
         production_units temp_celsius weather_condition promotion_active).rows) := by
  constructor
  · intro f
    show List.Sorted dateLE (sortByDate _)
    exact List.sorted_insertionSort dateLE _
  · intro db product date stock_level sold_units production_units temp_celsius
      weather_condition promotion_active
    show List.Sorted dateLE (sortByDate _)
    exact List.sorted_insertionSort dateLE _

/-- C9: `add_production_record` applies no non-negativity normalization —
for every call, negative values included, the new record stores the supplied
stock and sold values verbatim (unconditionally, unlike the bulk load path,
which clamps both), and any nonzero (in particular negative) stock level
yields a false stockout flag. -/
theorem c9_no_clamp (db : Frame) (product : String) (date : Int)
    (stock_level sold_units production_units : Rat)
    (temp_celsius weather_condition : Option Val) (promotion_active : Rat) :
    (appendRecord db product date stock_level sold_units production_units
      temp_celsius weather_condition promotion_active).stock = stock_level ∧
    (appendRecord db product date stock_level sold_units production_units
      temp_celsius weather_condition promotion_active).sold = sold_units ∧
    (stock_level ≠ 0 →
      (appendRecord db product date stock_level sold_units production_units
        temp_celsius weather_condition promotion_active).stockout = some 0) ∧
    (add_production_record db product date stock_level sold_units production_units
      temp_celsius weather_condition promotion_active).rows.Perm
      (db.rows ++ [appendRecord db product date stock_level sold_units
        production_units temp_celsius weather_condition promotion_active]) := by
  refine ⟨rfl, rfl, ?_, List.perm_insertionSort dateLE _⟩
  intro h
  show some (if stock_level = 0 then 1 else 0) = some 0
  rw [if_neg h]

/-- C9 witness: appending `stock_level = -2`, `sold_units = -3` stores both
negative values verbatim with a false stockout flag, and appending
`stock_level = 0`, `sold_units = -3` still stores the negative sold value
verbatim (with a true stockout flag). -/
theorem c9_witness :
    ((appendRecord exDb "B" 102 (-2) (-3) 0 none none 0).stock = -2 ∧
     (appendRecord exDb "B" 102 (-2) (-3) 0 none none 0).sold = -3 ∧
     ((-2 : Rat) ≠ 0 →
       (appendRecord exDb "B" 102 (-2) (-3) 0 none none 0).stockout = some 0) ∧
     (add_production_record exDb "B" 102 (-2) (-3) 0 none none 0).rows.Perm
       (exDb.rows ++ [appendRecord exDb "B" 102 (-2) (-3) 0 none none 0])) ∧
    (appendRecord exDb "B" 102 0 (-3) 0 none none 0).stock = 0 ∧
    (appendRecord exDb "B" 102 0 (-3) 0 none none 0).sold = -3 ∧
    (appendRecord exDb "B" 102 0 (-3) 0 none none 0).stockout = some 1 ∧
    (appendRecord exDb "B" 102 (-2) (-3) 0 none none 0).stockout = some 0 :=
  ⟨c9_no_clamp exDb "B" 102 (-2) (-3) 0 none none 0, rfl, rfl, by decide, by decide⟩

/-- C10: every append grows the collection by exactly one record, and every
pre-existing record survives with all field values intact (the new
collection is a permutation of the old plus the one new record, so
multiplicities never decrease). -/
theorem c10_frame (db : Frame) (product : String) (date : Int)
    (stock_level sold_units production_units : Rat)
    (temp_celsius weather_condition : Option Val) (promotion_active : Rat) :
    (add_production_record db product date stock_level sold_units production_units
      temp_celsius weather_condition promotion_active).rows.length
        = db.rows.length + 1 ∧
    ∀ r : Record, db.rows.count r ≤
      (add_production_record db product date stock_level sold_units production_units
        temp_celsius weather_condition promotion_active).rows.count r := by
  have hp : (add_production_record db product date stock_level sold_units
      production_units temp_celsius weather_condition promotion_active).rows.Perm
      (db.rows ++ [appendRecord db product date stock_level sold_units
        production_units temp_celsius weather_condition promotion_active]) :=
    List.perm_insertionSort dateLE _
  constructor
  · rw [hp.length_eq, List.length_append]; rfl
  · intro r
    rw [hp.count_eq, List.count_append]
    exact Nat.le_add_right _ _

end SupplyChain
